import Mathlib

/-!
Verification development for the rendercv schema-validation core.

The definitions below are shallow embeddings of the Python functions in
`rendercv/schema` and `rendercv/renderer/templater/date.py`:

- `get_date_object`, `validate_exact_date`, `validate_arbitrary_date` embed
  the date parsing of `entries/bases/entry_with_complex_fields.py` and
  `entries/bases/entry_with_date.py`.
- `check_and_adjust_dates` embeds the model validator of
  `BaseEntryWithComplexFields`.
- The entry catalog, `get_characteristic_entry_fields`,
  `get_entry_type_name_and_section_model` and `validate_section` embed
  `models/cv/section.py`.
- `update_value_by_location` and `apply_overrides_to_dictionary` embed
  `override_dictionary.py`.
- `get_inner_yaml_object_from_its_key` and
  `get_coordinates_of_a_key_in_a_yaml_object` embed
  `pydantic_error_handling.py`.
- `compute_time_span_string` embeds `renderer/templater/date.py`.

Python exceptions are modelled as `Except` error values; machine-level
behaviour (CPython int parsing, `datetime.date.fromisoformat`, negative list
indexing) is reproduced explicitly where the code relies on it.
-/

namespace RenderCV

/-- Scalar values that can appear in the date fields of an entry: Python
strings or Python integers. -/
inductive PyScalar where
  | s (v : String)
  | i (v : Int)
  deriving DecidableEq, Repr

/-- Leap-year test, as in the Python datetime module. -/
def isLeapYear (y : Nat) : Bool :=
  (y % 4 == 0 && y % 100 != 0) || y % 400 == 0

/-- Number of days of month `m` in year `y`, as in the Python datetime module. -/
def daysInMonth (y m : Nat) : Nat :=
  if m == 2 then (if isLeapYear y then 29 else 28)
  else if m == 4 || m == 6 || m == 9 || m == 11 then 30
  else 31

/-- A Python `datetime.date` value. -/
structure Date where
  year : Nat
  month : Nat
  day : Nat
  deriving DecidableEq, Repr

/-- Validity condition enforced by `datetime.date` (and therefore by
`Date.fromisoformat`): year in 1..9999, month in 1..12, day in range for
the month. -/
def isoValid (y m d : Nat) : Bool :=
  decide (1 ≤ y ∧ y ≤ 9999 ∧ 1 ≤ m ∧ m ≤ 12 ∧ 1 ≤ d ∧ d ≤ daysInMonth y m)

/-- Numeric value of a decimal digit character. -/
def digitVal (c : Char) : Nat := c.toNat - 48

/-- Matcher for the regular expression `\d{4}-\d{2}-\d{2}` together with the
numeric components it captures. -/
def matchYMD (str : String) : Option (Nat × Nat × Nat) :=
  match str.data with
  | [y1, y2, y3, y4, c1, m1, m2, c2, d1, d2] =>
    if y1.isDigit && y2.isDigit && y3.isDigit && y4.isDigit && c1 == '-' &&
        m1.isDigit && m2.isDigit && c2 == '-' && d1.isDigit && d2.isDigit then
      some (digitVal y1 * 1000 + digitVal y2 * 100 + digitVal y3 * 10 + digitVal y4,
        digitVal m1 * 10 + digitVal m2, digitVal d1 * 10 + digitVal d2)
    else none
  | _ => none

/-- Matcher for the regular expression `\d{4}-\d{2}`. -/
def matchYM (str : String) : Option (Nat × Nat) :=
  match str.data with
  | [y1, y2, y3, y4, c1, m1, m2] =>
    if y1.isDigit && y2.isDigit && y3.isDigit && y4.isDigit && c1 == '-' &&
        m1.isDigit && m2.isDigit then
      some (digitVal y1 * 1000 + digitVal y2 * 100 + digitVal y3 * 10 + digitVal y4,
        digitVal m1 * 10 + digitVal m2)
    else none
  | _ => none

/-- Matcher for the regular expression `\d{4}`. -/
def matchY (str : String) : Option Nat :=
  match str.data with
  | [y1, y2, y3, y4] =>
    if y1.isDigit && y2.isDigit && y3.isDigit && y4.isDigit then
      some (digitVal y1 * 1000 + digitVal y2 * 100 + digitVal y3 * 10 + digitVal y4)
    else none
  | _ => none

/-- Failure modes of `get_date_object`:
`valueError` is a `ValueError` escaping `Date.fromisoformat`,
`invalidFormat` is the `RenderCVInternalError` raised for unrecognized input,
`missingCurrentDate` is the failed assertion when the input is `present` but
no reference date was supplied. -/
inductive DateErr where
  | valueError
  | invalidFormat
  | missingCurrentDate
  deriving DecidableEq, Repr

/-- Embedding of `get_date_object` from
`entries/bases/entry_with_complex_fields.py`. The branches mirror the source:
integer input, the three date regular expressions in order, the `present`
keyword, and the final internal error. For integer input the source builds
the string `-01-01` suffix form and calls `Date.fromisoformat`, which demands
a four-digit year, so exactly the years 1000..9999 parse. -/
def get_date_object (date : PyScalar) (current_date : Option Date) :
    Except DateErr Date :=
  match date with
  | .i n =>
    if 1000 ≤ n ∧ n ≤ 9999 then .ok ⟨n.toNat, 1, 1⟩ else .error .valueError
  | .s str =>
    match matchYMD str with
    | some (y, m, d) =>
      if isoValid y m d then .ok ⟨y, m, d⟩ else .error .valueError
    | none =>
      match matchYM str with
      | some (y, m) =>
        if isoValid y m 1 then .ok ⟨y, m, 1⟩ else .error .valueError
      | none =>
        match matchY str with
        | some y =>
          if isoValid y 1 1 then .ok ⟨y, 1, 1⟩ else .error .valueError
        | none =>
          if str == "present" then
            match current_date with
            | some c => .ok c
            | none => .error .missingCurrentDate
          else .error .invalidFormat

/-- Boolean success test for an `Except` computation. -/
def isOkE {ε α : Type} (r : Except ε α) : Bool :=
  match r with
  | .ok _ => true
  | .error _ => false

/-- Failure modes of `validate_exact_date`: the source catches
`RenderCVInternalError` and re-raises a Pydantic custom error; a
`ValueError` or `AssertionError` from `get_date_object` propagates (Pydantic
also converts those into validation failures). -/
inductive ExactDateErr where
  | customNotAValidDate
  | valueError
  | assertionFailed
  deriving DecidableEq, Repr

/-- Embedding of `validate_exact_date`: calls `get_date_object` with no
reference date and classifies the outcome. -/
def validate_exact_date (date : PyScalar) : Except ExactDateErr PyScalar :=
  match get_date_object date none with
  | .ok _ => .ok date
  | .error .invalidFormat => .error .customNotAValidDate
  | .error .valueError => .error .valueError
  | .error .missingCurrentDate => .error .assertionFailed

/-- Python `str` applied to a scalar. -/
def pyStr (v : PyScalar) : String :=
  match v with
  | .s x => x
  | .i n => toString n

/-- Embedding of `validate_arbitrary_date` from
`entries/bases/entry_with_date.py`: date-shaped strings are parsed eagerly,
anything else passes through unchanged. -/
def validate_arbitrary_date (date : PyScalar) : Except DateErr PyScalar :=
  match matchYMD (pyStr date) with
  | some (y, m, d) =>
    if isoValid y m d then .ok date else .error .valueError
  | none =>
    match matchYM (pyStr date) with
    | some (y, m) =>
      if isoValid y m 1 then .ok date else .error .valueError
    | none => .ok date

/-- The three optional date fields of a date-bearing entry. -/
structure DateFacet where
  date : Option PyScalar
  start_date : Option PyScalar
  end_date : Option PyScalar
  deriving DecidableEq, Repr

/-- Python truth test on an optional scalar field: `None`, the empty string
and the integer zero are falsy. -/
def truthy : Option PyScalar → Bool
  | none => false
  | some (.s v) => !(v == "")
  | some (.i n) => !(n == 0)

/-- The mutation part of `BaseEntryWithComplexFields.check_and_adjust_dates`:
if `date` is set, clear both range fields; else if only `end_date` is set,
move it into `date` and clear the range fields; else if only `start_date` is
set, set `end_date` to the string `present`. -/
def adjustDateFields (f : DateFacet) : DateFacet :=
  if f.date.isSome then
    { f with start_date := none, end_date := none }
  else if !f.start_date.isSome && f.end_date.isSome then
    ⟨f.end_date, none, none⟩
  else if f.start_date.isSome && !f.end_date.isSome then
    { f with end_date := some (.s "present") }
  else f

/-- Lexicographic comparison of dates, as Python compares `datetime.date`
values. -/
def dateLt (a b : Date) : Bool :=
  decide (a.year < b.year ∨ (a.year = b.year ∧ (a.month < b.month ∨
    (a.month = b.month ∧ a.day < b.day))))

/-- Failure modes of the date-order check: a parse failure propagating out of
`get_date_object`, or the Pydantic custom error raised when the start date is
after the end date (the error carries both offending values). -/
inductive RangeErr where
  | parseFailed (e : DateErr)
  | startAfterEnd (startValue endValue : PyScalar)
  deriving DecidableEq, Repr

/-- The comparison part of `check_and_adjust_dates`: when both (already
adjusted) range fields are truthy, resolve both endpoints against the
reference date and fail if the start date is strictly after the end date. -/
def checkDateOrder (f : DateFacet) (current_date : Date) :
    Except RangeErr DateFacet :=
  if truthy f.start_date && truthy f.end_date then
    match f.start_date, f.end_date with
    | some sv, some ev =>
      match get_date_object sv (some current_date) with
      | .error e => .error (.parseFailed e)
      | .ok sd =>
        match get_date_object ev (some current_date) with
        | .error e => .error (.parseFailed e)
        | .ok ed =>
          if dateLt ed sd then .error (.startAfterEnd sv ev) else .ok f
    | _, _ => .ok f
  else .ok f

/-- Embedding of `BaseEntryWithComplexFields.check_and_adjust_dates`: the
source method first mutates the three fields in place and then checks the
range order on the mutated state; here the two stages are composed. -/
def check_and_adjust_dates (f : DateFacet) (current_date : Date) :
    Except RangeErr DateFacet :=
  checkDateOrder (adjustDateFields f) current_date

/-- Names of the entry models, in the declaration order of the `EntryModel`
union in `models/cv/section.py`. -/
inductive EntryTypeName where
  | OneLineEntry
  | NormalEntry
  | ExperienceEntry
  | EducationEntry
  | PublicationEntry
  | BulletEntry
  | NumberedEntry
  | ReversedNumberedEntry
  deriving DecidableEq, Repr

/-- The tuple `available_entry_models`, in union declaration order. -/
def available_entry_models : List EntryTypeName :=
  [.OneLineEntry, .NormalEntry, .ExperienceEntry, .EducationEntry,
   .PublicationEntry, .BulletEntry, .NumberedEntry, .ReversedNumberedEntry]

/-- Pydantic `model_fields` keys of each entry model, including inherited
fields: `OneLineEntry`, `BulletEntry`, `NumberedEntry` and
`ReversedNumberedEntry` extend only `BaseEntry`; `PublicationEntry` extends
`BaseEntryWithDate`; the other three extend `BaseEntryWithComplexFields`. -/
def model_fields : EntryTypeName → List String
  | .OneLineEntry => ["label", "details"]
  | .NormalEntry =>
    ["date", "start_date", "end_date", "location", "summary", "highlights",
     "name"]
  | .ExperienceEntry =>
    ["date", "start_date", "end_date", "location", "summary", "highlights",
     "company", "position"]
  | .EducationEntry =>
    ["date", "start_date", "end_date", "location", "summary", "highlights",
     "institution", "area", "degree"]
  | .PublicationEntry =>
    ["date", "title", "authors", "summary", "doi", "url", "journal"]
  | .BulletEntry => ["bullet"]
  | .NumberedEntry => ["number"]
  | .ReversedNumberedEntry => ["reversed_number"]

/-- The concatenated attribute list built by
`get_characteristic_entry_fields`. -/
def all_attributes : List String :=
  (available_entry_models.map model_fields).flatten

/-- Attributes occurring in more than one entry model (the
`common_attributes` set of the source). -/
def common_attributes : List String :=
  all_attributes.filter (fun f => 1 < all_attributes.count f)

/-- Embedding of `get_characteristic_entry_fields`: the fields of a model
minus the attributes shared with any other model. -/
def characteristic_entry_fields (t : EntryTypeName) : List String :=
  (model_fields t).filter (fun f => !(common_attributes.contains f))

/-- Raw values appearing inside a raw entry dictionary. -/
inductive RVal where
  | s (v : String)
  | i (v : Int)
  | vals (xs : List RVal)
  | null

/-- A raw entry of a section before validation: a YAML string, a YAML
mapping, or YAML null. -/
inductive RawEntry where
  | text (v : String)
  | record (kvs : List (String × RVal))
  | null

/-- Outcome of entry-type inference: one of the entry models, or the text
entry kind used for bare strings. -/
inductive EntryKind where
  | model (t : EntryTypeName)
  | textEntry
  deriving DecidableEq, Repr

/-- Failure modes of `get_entry_type_name_and_section_model`; both are
Pydantic custom errors in the source. -/
inductive InferErr where
  | noMatchingType
  | entryIsNone
  deriving DecidableEq, Repr

/-- Key set of a raw entry dictionary. -/
def keysOf (kvs : List (String × RVal)) : List String :=
  kvs.map Prod.fst

/-- Nonempty-intersection test between a characteristic-field list and a key
list (the `characteristic_fields & set(entry.keys())` test of the source). -/
def hasAnyKey (fields keys : List String) : Bool :=
  fields.any (fun f => keys.contains f)

/-- Embedding of `get_entry_type_name_and_section_model`: a dictionary is
matched against the catalog in declaration order, taking the first model
with a characteristic field among the keys; a string is a text entry; a null
entry is rejected. -/
def get_entry_type_name_and_section_model :
    RawEntry → Except InferErr EntryKind
  | .record kvs =>
    match available_entry_models.find?
        (fun t => hasAnyKey (characteristic_entry_fields t) (keysOf kvs)) with
    | some t => .ok (.model t)
    | none => .error .noMatchingType
  | .text _ => .ok .textEntry
  | .null => .error .entryIsNone

/-- Required fields of string type for each entry model (the fields declared
without a default in the source models). -/
def requiredStringFields : EntryTypeName → List String
  | .OneLineEntry => ["label", "details"]
  | .NormalEntry => ["name"]
  | .ExperienceEntry => ["company", "position"]
  | .EducationEntry => ["institution", "area"]
  | .PublicationEntry => ["title"]
  | .BulletEntry => ["bullet"]
  | .NumberedEntry => ["number"]
  | .ReversedNumberedEntry => ["reversed_number"]

/-- Required fields of list-of-strings type (`authors` of
`PublicationEntry`). -/
def requiredStrListFields : EntryTypeName → List String
  | .PublicationEntry => ["authors"]
  | _ => []

/-- Lookup of a key in a raw entry dictionary. -/
def lookupKey (kvs : List (String × RVal)) (k : String) : Option RVal :=
  match kvs.find? (fun p => p.fst == k) with
  | some p => some p.snd
  | none => none

/-- Per-field validation failures of a single entry, as Pydantic reports
them for the generated section models. -/
inductive VErr where
  | missingField (field : String)
  | notAString (field : String)
  | notAListOfStrings (field : String)
  | invalidExactDate (field : String)
  | invalidEndDate
  | invalidArbitraryDate
  | inputNotADictionary
  | inputNotAString
  | rangeError (e : RangeErr)
  deriving DecidableEq, Repr

/-- Test that a raw value is a string. -/
def isStringVal : RVal → Bool
  | .s _ => true
  | _ => false

/-- Test that a raw value is a list of strings. -/
def isStrList : RVal → Bool
  | .vals xs => xs.all isStringVal
  | _ => false

/-- Validation of the required fields of one entry model against a raw
dictionary: a missing key or a value of the wrong type is an error. -/
def requiredFieldErrors (t : EntryTypeName) (kvs : List (String × RVal)) :
    List VErr :=
  ((requiredStringFields t).map (fun f =>
    match lookupKey kvs f with
    | none => [VErr.missingField f]
    | some v => if isStringVal v then [] else [VErr.notAString f])).flatten
  ++ ((requiredStrListFields t).map (fun f =>
    match lookupKey kvs f with
    | none => [VErr.missingField f]
    | some v => if isStrList v then [] else [VErr.notAListOfStrings f])).flatten

/-- Entry models inheriting the `start_date` and `end_date` fields from
`BaseEntryWithComplexFields`. -/
def hasComplexDateFields : EntryTypeName → Bool
  | .NormalEntry => true
  | .ExperienceEntry => true
  | .EducationEntry => true
  | _ => false

/-- Entry models inheriting the `date` field from `BaseEntryWithDate`. -/
def hasArbitraryDateField (t : EntryTypeName) : Bool :=
  hasComplexDateFields t || t == .PublicationEntry

/-- View of a raw value as a date scalar. -/
def asScalar : RVal → Option PyScalar
  | .s v => some (.s v)
  | .i v => some (.i v)
  | _ => none

/-- Field validation of the `date` field (`ArbitraryDate` with `None`
allowed): scalars run `validate_arbitrary_date`, lists are type errors. -/
def arbitraryDateFieldErrors (v : RVal) : List VErr :=
  match v with
  | .null => []
  | .s x => if isOkE (validate_arbitrary_date (.s x)) then [] else [.invalidArbitraryDate]
  | .i x => if isOkE (validate_arbitrary_date (.i x)) then [] else [.invalidArbitraryDate]
  | .vals _ => [.invalidArbitraryDate]

/-- Field validation of `start_date` (`ExactDate` with `None` allowed). -/
def startDateFieldErrors (v : RVal) : List VErr :=
  match v with
  | .null => []
  | .s x => if isOkE (validate_exact_date (.s x)) then [] else [.invalidExactDate "start_date"]
  | .i x => if isOkE (validate_exact_date (.i x)) then [] else [.invalidExactDate "start_date"]
  | .vals _ => [.invalidExactDate "start_date"]

/-- Field validation of `end_date` (`ExactDate`, the literal `present`, or
`None`). -/
def endDateFieldErrors (v : RVal) : List VErr :=
  match v with
  | .null => []
  | .s x =>
    if x == "present" || isOkE (validate_exact_date (.s x)) then [] else [.invalidEndDate]
  | .i x => if isOkE (validate_exact_date (.i x)) then [] else [.invalidEndDate]
  | .vals _ => [.invalidEndDate]

/-- Validation failures of the date fields an entry model declares; fields
absent from the dictionary are valid (they default to `None`), and keys the
model does not declare are unvalidated extras (`extra` is allowed). -/
def dateFieldErrors (t : EntryTypeName) (kvs : List (String × RVal)) :
    List VErr :=
  (if hasArbitraryDateField t then
    match lookupKey kvs "date" with
    | none => []
    | some v => arbitraryDateFieldErrors v
  else [])
  ++ (if hasComplexDateFields t then
    (match lookupKey kvs "start_date" with
    | none => []
    | some v => startDateFieldErrors v)
    ++ (match lookupKey kvs "end_date" with
    | none => []
    | some v => endDateFieldErrors v)
  else [])

/-- The date facet a validated dictionary induces on the model instance
(missing keys and nulls are `None`). -/
def extractDateFacet (kvs : List (String × RVal)) : DateFacet :=
  ⟨(lookupKey kvs "date").bind asScalar,
   (lookupKey kvs "start_date").bind asScalar,
   (lookupKey kvs "end_date").bind asScalar⟩

/-- Validation of one raw entry against one section kind, following how
Pydantic validates an element of the generated section model: a text section
demands strings; a model section demands a dictionary, checks the declared
fields, and, when every field validates and the model inherits from
`BaseEntryWithComplexFields`, runs the `check_and_adjust_dates` model
validator. -/
def validateEntryAs (kind : EntryKind) (e : RawEntry) (current_date : Date) :
    List VErr :=
  match kind, e with
  | .textEntry, .text _ => []
  | .textEntry, _ => [.inputNotAString]
  | .model t, .record kvs =>
    let errs := requiredFieldErrors t kvs ++ dateFieldErrors t kvs
    if errs.isEmpty && hasComplexDateFields t then
      match check_and_adjust_dates (extractDateFacet kvs) current_date with
      | .ok _ => []
      | .error re => [.rangeError re]
    else errs
  | .model _, _ => [.inputNotADictionary]

/-- Input of `validate_section`: a YAML list of raw entries, or any other
YAML value. -/
inductive SectionInput where
  | entries (es : List RawEntry)
  | notAList

/-- Failure modes of `validate_section`: no entry determines a type, an
aggregate error carrying the detected kind and the per-entry causes, or a
non-list input. -/
inductive SecErr where
  | couldNotDetermineEntryType
  | entryValidation (detected : EntryKind) (causes : List (Nat × VErr))
  | notAList
  deriving Repr

/-- The type-detection loop of `validate_section`: the first entry for which
inference succeeds determines the kind; inference failures move to the next
entry. -/
def findFirstEntryKind : List RawEntry → Option EntryKind
  | [] => none
  | e :: rest =>
    match get_entry_type_name_and_section_model e with
    | .ok k => some k
    | .error _ => findFirstEntryKind rest

/-- Errors of every entry of the list against one kind, each tagged with its
index (Pydantic validates each element of the `entries` list and reports its
position). -/
def collectEntryErrorsFrom (kind : EntryKind) (es : List RawEntry)
    (current_date : Date) (idx : Nat) : List (Nat × VErr) :=
  match es with
  | [] => []
  | e :: rest =>
    (validateEntryAs kind e current_date).map (fun v => (idx, v))
      ++ collectEntryErrorsFrom kind rest current_date (idx + 1)

/-- Embedding of `validate_section` from `models/cv/section.py`. On success
the source returns the validated entries; the embedding tracks validation
outcomes and returns the entry list unchanged. -/
def validate_section (input : SectionInput) (current_date : Date) :
    Except SecErr (List RawEntry) :=
  match input with
  | .notAList => .error .notAList
  | .entries es =>
    match findFirstEntryKind es with
    | none => .error .couldNotDetermineEntryType
    | some kind =>
      let causes := collectEntryErrorsFrom kind es current_date 0
      if causes.isEmpty then .ok es
      else .error (.entryValidation kind causes)

/-- A parsed YAML document as the override applier sees it: nested Python
dictionaries, lists and scalar leaves. -/
inductive PyVal where
  | str (v : String)
  | arr (xs : List PyVal)
  | dict (kvs : List (String × PyVal))

/-- Digits of a decimal literal folded into a number. -/
def digitsToNat (cs : List Char) : Nat :=
  cs.foldl (fun a c => a * 10 + digitVal c) 0

/-- Test for a nonempty block of decimal digits. -/
def allDigits (cs : List Char) : Bool :=
  !cs.isEmpty && cs.all Char.isDigit

/-- CPython `int` applied to a string: an optional sign followed by digits
(the exotic whitespace and underscore forms never arise for path
segments). -/
def parsePyInt (str : String) : Option Int :=
  match str.data with
  | '-' :: rest =>
    if allDigits rest then some (-(digitsToNat rest : Int)) else none
  | '+' :: rest =>
    if allDigits rest then some ((digitsToNat rest : Int)) else none
  | cs => if allDigits cs then some ((digitsToNat cs : Int)) else none

/-- Failure modes of `update_value_by_location`: the three
`RenderCVUserError` cases of the source, plus the plain Python exceptions
the source does not catch (an `IndexError` from a negative index below the
length, and a `KeyError` from a missing dictionary key on a non-terminal
segment). -/
inductive OvErr where
  | notAnInteger (parent : String) (segment : String)
  | indexOutOfRange (index : Int) (parent : String)
  | unknownProblem (fullKey : String)
  | uncaughtIndexError (index : Int)
  | uncaughtKeyError (key : String)
  deriving DecidableEq, Repr

/-- Splitting a character list at every dot (Python `split` with a dot
separator: the result always has one more segment than there are dots). -/
def splitDotsChars : List Char → List (List Char)
  | [] => [[]]
  | c :: rest =>
    match splitDotsChars rest with
    | h :: t => if c == '.' then [] :: h :: t else (c :: h) :: t
    | [] => [[c]]

/-- Python `key.split` with a dot separator. -/
def splitDots (str : String) : List String :=
  (splitDotsChars str.data).map (fun cs => String.mk cs)

/-- Segments joined back into a dotted path. -/
def joinDots (segs : List String) : String :=
  String.intercalate "." segs

/-- The `previous_key` computed by the source for error messages: the part
of the full path already processed when `segs` segments remain. -/
def parentPath (fullSegs segs : List String) : String :=
  joinDots (fullSegs.take (fullSegs.length - segs.length))

/-- Python dictionary assignment on an association list: an existing key is
updated in place, a new key is appended. -/
def dictSet (kvs : List (String × PyVal)) (k : String) (v : PyVal) :
    List (String × PyVal) :=
  match kvs with
  | [] => [(k, v)]
  | (k2, v2) :: rest =>
    if k2 == k then (k2, v) :: rest else (k2, v2) :: dictSet rest k v

/-- Lookup in a Python dictionary modelled as an association list. -/
def lookupPv (kvs : List (String × PyVal)) (k : String) : Option PyVal :=
  match kvs.find? (fun p => p.fst == k) with
  | some p => some p.snd
  | none => none

/-- Core recursion of `update_value_by_location` over the split path. At a
list node the segment must parse as an integer and the source rejects only
indices at or above the length; Python indexing then wraps negative indices
from the end and raises an uncaught `IndexError` below `-length`. At a
dictionary node a terminal segment assigns the key and a non-terminal
segment must find it. Any other node is the unknown-problem error. -/
def update_segments (v : PyVal) (segs : List String) (value : String)
    (fullSegs : List String) : Except OvErr PyVal :=
  match segs with
  | [] => .ok v
  | seg :: rest =>
    match v with
    | .arr xs =>
      match parsePyInt seg with
      | none => .error (.notAnInteger (parentPath fullSegs (seg :: rest)) seg)
      | some idx =>
        if (xs.length : Int) ≤ idx then
          .error (.indexOutOfRange idx (parentPath fullSegs (seg :: rest)))
        else
          if h1 : 0 ≤ idx ∧ idx < (xs.length : Int) then
            if rest.isEmpty then .ok (.arr (xs.set idx.toNat (.str value)))
            else
              match update_segments (xs.get ⟨idx.toNat, by omega⟩) rest value fullSegs with
              | .error e => .error e
              | .ok nv => .ok (.arr (xs.set idx.toNat nv))
          else if h2 : -(xs.length : Int) ≤ idx ∧ idx < 0 then
            if rest.isEmpty then
              .ok (.arr (xs.set ((xs.length : Int) + idx).toNat (.str value)))
            else
              match update_segments (xs.get ⟨((xs.length : Int) + idx).toNat, by omega⟩)
                  rest value fullSegs with
              | .error e => .error e
              | .ok nv => .ok (.arr (xs.set ((xs.length : Int) + idx).toNat nv))
          else .error (.uncaughtIndexError idx)
    | .dict kvs =>
      if rest.isEmpty then .ok (.dict (dictSet kvs seg (.str value)))
      else
        match lookupPv kvs seg with
        | none => .error (.uncaughtKeyError seg)
        | some inner =>
          match update_segments inner rest value fullSegs with
          | .error e => .error e
          | .ok nv => .ok (.dict (dictSet kvs seg nv))
    | .str _ => .error (.unknownProblem (joinDots fullSegs))

/-- Embedding of `update_value_by_location` from `override_dictionary.py`:
the source splits the key on dots at each recursion step; splitting once up
front is equivalent because segments contain no dots. -/
def update_value_by_location (v : PyVal) (key value full_key : String) :
    Except OvErr PyVal :=
  update_segments v (splitDots key) value (splitDots full_key)

/-- Embedding of `apply_overrides_to_dictionary`: the source deep-copies the
dictionary and applies the overrides in order, each step reassigning the
copy; the first raised error aborts the loop. The deep copy makes the source
observationally pure, which the value semantics here captures directly. -/
def apply_overrides_to_dictionary (dictionary : PyVal)
    (overrides : List (String × String)) : Except OvErr PyVal :=
  match overrides with
  | [] => .ok dictionary
  | (k, v) :: rest =>
    match update_value_by_location dictionary k v k with
    | .error e => .error e
    | .ok d2 => apply_overrides_to_dictionary d2 rest

/-- A source range: start and end positions, each a line and a column. The
arithmetic of the source operates on plain Python integers. -/
abbrev Coords := (Int × Int) × (Int × Int)

/-- A position-annotated YAML tree as ruamel produces it: sequences carry a
start position per item in `lc.data`, mappings carry a four-number position
record per key. -/
inductive YNode where
  | scalar (v : String)
  | seq (items : List ((Int × Int) × YNode))
  | ymap (entries : List (String × (Int × Int × Int × Int) × YNode))
  deriving Repr

/-- Failure modes of `get_inner_yaml_object_from_its_key`: the two
`RenderCVInternalError` cases raised by the source, plus the plain Python
exceptions the source does not catch (a numeric segment applied to a
mapping raises `KeyError`; indexing into a scalar string reads a character
and then fails to take `.lc` on it; a membership hit inside a sequence or a
substring hit inside a scalar leads to indexing the node with a string,
raising `TypeError`). -/
inductive LocErr where
  | indexOutOfRangeInternal (index : Int)
  | keyNotFoundInternal (key : String)
  | uncaughtKeyError (index : Int)
  | uncaughtAttributeError
  | uncaughtTypeError
  deriving DecidableEq, Repr

/-- Coordinates the source computes for a sequence item from its `lc`
entry. -/
def seqItemCoords (lc : Int × Int) : Coords :=
  ((lc.fst + 1, lc.snd - 1), (lc.fst + 1, lc.snd))

/-- Coordinates the source computes for a mapping key from its `lc`
record. -/
def mapKeyCoords (lc : Int × Int × Int × Int) : Coords :=
  ((lc.fst + 1, lc.snd.fst + 1), (lc.snd.snd.fst + 1, lc.snd.snd.snd))

/-- Lookup of a key in a position-annotated mapping. -/
def lookupYK (entries : List (String × (Int × Int × Int × Int) × YNode))
    (k : String) : Option ((Int × Int × Int × Int) × YNode) :=
  match entries.find? (fun p => p.fst == k) with
  | some p => some p.snd
  | none => none

/-- Substring test on character lists (Python `in` on strings). -/
def listHasSub (xs ys : List Char) : Bool :=
  match xs with
  | [] => ys.isEmpty
  | _ :: t => ys.isPrefixOf xs || listHasSub t ys

/-- Equality test between a node and a scalar string, as Python compares a
string with the elements of a sequence during a membership test. -/
def yNodeEqScalar (n : YNode) (k : String) : Bool :=
  match n with
  | .scalar v => v == k
  | _ => false

/-- Embedding of `get_inner_yaml_object_from_its_key` from
`pydantic_error_handling.py`: a numeric segment is treated as a list index
(Python indexing wraps negative indices; an `IndexError` becomes the
internal out-of-range error), a non-numeric segment as a mapping key (a
missing key becomes the internal key-not-found error). Localization FAILS
with these internal errors; the source has no fallback to an ancestor
range. -/
def get_inner_yaml_object_from_its_key (yaml_object : YNode)
    (location_key : String) : Except LocErr (YNode × Coords) :=
  match parsePyInt location_key with
  | some index =>
    match yaml_object with
    | .seq items =>
      if h1 : 0 ≤ index ∧ index < (items.length : Int) then
        let p := items.get ⟨index.toNat, by omega⟩
        .ok (p.snd, seqItemCoords p.fst)
      else if h2 : -(items.length : Int) ≤ index ∧ index < 0 then
        let p := items.get ⟨((items.length : Int) + index).toNat, by omega⟩
        .ok (p.snd, seqItemCoords p.fst)
      else .error (.indexOutOfRangeInternal index)
    | .ymap _ => .error (.uncaughtKeyError index)
    | .scalar v =>
      if -(v.length : Int) ≤ index ∧ index < (v.length : Int) then
        .error .uncaughtAttributeError
      else .error (.indexOutOfRangeInternal index)
  | none =>
    match yaml_object with
    | .ymap entries =>
      match lookupYK entries location_key with
      | some (lc, node) => .ok (node, mapKeyCoords lc)
      | none => .error (.keyNotFoundInternal location_key)
    | .seq items =>
      if items.any (fun p => yNodeEqScalar p.snd location_key) then
        .error .uncaughtTypeError
      else .error (.keyNotFoundInternal location_key)
    | .scalar v =>
      if listHasSub v.data location_key.data then .error .uncaughtTypeError
      else .error (.keyNotFoundInternal location_key)

/-- The traversal loop of `get_coordinates_of_a_key_in_a_yaml_object`: the
source threads the pair of current object and current coordinates through
the segments. -/
def resolvePairs : (YNode × Coords) → List String → Except LocErr (YNode × Coords)
  | p, [] => .ok p
  | (y, _), k :: rest =>
    match get_inner_yaml_object_from_its_key y k with
    | .error e => .error e
    | .ok p2 => resolvePairs p2 rest

/-- Embedding of `get_coordinates_of_a_key_in_a_yaml_object`: coordinates
start at the zero range and each resolved segment replaces them; an
unresolvable segment raises out of the loop. -/
def get_coordinates_of_a_key_in_a_yaml_object (yaml_object : YNode)
    (location : List String) : Except LocErr Coords :=
  match resolvePairs (yaml_object, ((0, 0), (0, 0))) location with
  | .ok p => .ok p.snd
  | .error e => .error e

/-- Cumulative days before month `m` in a non-leap year, as
`datetime.date.toordinal` uses. -/
def daysBeforeMonth (m : Nat) : Nat :=
  match m with
  | 1 => 0
  | 2 => 31
  | 3 => 59
  | 4 => 90
  | 5 => 120
  | 6 => 151
  | 7 => 181
  | 8 => 212
  | 9 => 243
  | 10 => 273
  | 11 => 304
  | 12 => 334
  | _ => 365

/-- Proleptic-Gregorian ordinal of a date (`datetime.date.toordinal`), so
that subtracting two ordinals gives the `timedelta.days` of the source. -/
def dateOrdinal (d : Date) : Nat :=
  365 * (d.year - 1) + (d.year - 1) / 4 - (d.year - 1) / 100 + (d.year - 1) / 400
    + daysBeforeMonth d.month
    + (if 2 < d.month ∧ isLeapYear d.year then 1 else 0) + d.day

/-- The locale words `compute_time_span_string` consumes. -/
structure LocaleWords where
  year : String
  years : String
  month : String
  months : String
  deriving DecidableEq, Repr

/-- The four placeholder values `compute_time_span_string` substitutes into
the time-span template. -/
structure SpanPlaceholders where
  howManyYears : String
  yearsWord : String
  howManyMonths : String
  monthsWord : String
  deriving DecidableEq, Repr

/-- Test for a Python integer scalar. -/
def isIntScalar : PyScalar → Bool
  | .i _ => true
  | _ => false

/-- Formatting of the year and month counts into placeholder values, as the
tail of `compute_time_span_string` does: a zero count becomes empty text, a
count of one selects the singular word. -/
def formatSpanCounts (yearCount monthCount : Int) (locale : LocaleWords) :
    SpanPlaceholders :=
  ⟨if yearCount = 0 then "" else if yearCount = 1 then "1" else toString yearCount,
   if yearCount = 0 then "" else if yearCount = 1 then locale.year else locale.years,
   if monthCount = 0 then "" else if monthCount = 1 then "1" else toString monthCount,
   if monthCount = 0 then "" else if monthCount = 1 then locale.month else locale.months⟩

/-- Embedding of `compute_time_span_string` from
`renderer/templater/date.py`. If either endpoint is a Python integer the
span is the difference of the resolved years, rendered as one year whenever
that difference is below two. Otherwise both endpoints resolve to dates and
the span comes from the elapsed days: years by floor division by 365,
months by floor-dividing the remainder by 30 plus one, with month overflow
folded into the years. Division and remainder are Python floor semantics
(`Int.fdiv`, `Int.fmod`). -/
def compute_time_span_string (start_date end_date : PyScalar)
    (locale : LocaleWords) (current_date : Date) :
    Except DateErr SpanPlaceholders :=
  if isIntScalar start_date || isIntScalar end_date then
    match get_date_object start_date (some current_date) with
    | .error e => .error e
    | .ok sd =>
      match get_date_object end_date (some current_date) with
      | .error e => .error e
      | .ok ed =>
        if ((ed.year : Int) - (sd.year : Int)) < 2 then
          .ok ⟨"1", locale.year, "", ""⟩
        else
          .ok ⟨toString ((ed.year : Int) - (sd.year : Int)), locale.years, "", ""⟩
  else
    match get_date_object end_date (some current_date) with
    | .error e => .error e
    | .ok ed =>
      match get_date_object start_date (some current_date) with
      | .error e => .error e
      | .ok sd =>
        let days : Int := (dateOrdinal ed : Int) - (dateOrdinal sd : Int)
        let years0 : Int := days.fdiv 365
        let months0 : Int := (days.fmod 365).fdiv 30 + 1
        .ok (formatSpanCounts (years0 + months0.fdiv 12) (months0.fmod 12) locale)

/-!
Specification-side definitions. The following definitions transcribe the
words of the specification (not the code); the theorems below compare the
embedded code against them.
-/

/-- Acceptance predicate for exact dates as the spec words it: the formats
`YYYY`, `YYYY-MM`, `YYYY-MM-DD` with calendar-valid components (a string of
one of the three shapes, or an integer whose decimal form is a four-digit
year), or the string `present`. -/
def specAcceptedExactDate (v : PyScalar) : Bool :=
  match v with
  | .i n => decide (1000 ≤ n ∧ n ≤ 9999)
  | .s str =>
    (match matchYMD str with
     | some (y, m, d) => isoValid y m d
     | none => false) ||
    (match matchYM str with
     | some (y, m) => isoValid y m 1
     | none => false) ||
    (match matchY str with
     | some y => isoValid y 1 1
     | none => false) ||
    str == "present"

/-- The two date-facet configurations the spec allows after normalization:
the single date alone, or both range endpoints. -/
def exactlyOneDateConfig (f : DateFacet) : Prop :=
  (f.date.isSome = true ∧ f.start_date = none ∧ f.end_date = none) ∨
  (f.date = none ∧ f.start_date.isSome = true ∧ f.end_date.isSome = true)

/-- The reference span formula of the spec for day-precision endpoints:
years by floor division of the elapsed days by 365, months by
floor-dividing the remainder by 30 plus one, then month overflow folded
into the years. -/
def specSpanFromDays (days : Int) : Int × Int :=
  ((days.fdiv 365) + ((days.fmod 365).fdiv 30 + 1).fdiv 12,
   ((days.fmod 365).fdiv 30 + 1).fmod 12)

/-- Position-annotated document used by the claims about the error
localizer: a `cv.sections.experience` list holding a single mapping with a
`company` key. -/
def c1Doc : YNode :=
  .ymap [("cv", (0, 0, 1, 2),
    .ymap [("sections", (1, 2, 2, 4),
      .ymap [("experience", (2, 4, 3, 6),
        .seq [((3, 6), .ymap [("company", (3, 8, 3, 10), .scalar "X")])])])])]

/-!
Theorems. Helper lemmas come first, then one theorem per claim with its
witness or counterexample.
-/

theorem matchYMD_some_len {str : String} {p : Nat × Nat × Nat}
    (h : matchYMD str = some p) : str.data.length = 10 := by
  unfold matchYMD at h
  split at h
  · next heq => rw [heq]; rfl
  · exact Option.noConfusion h

theorem matchYM_some_len {str : String} {p : Nat × Nat}
    (h : matchYM str = some p) : str.data.length = 7 := by
  unfold matchYM at h
  split at h
  · next heq => rw [heq]; rfl
  · exact Option.noConfusion h

theorem matchY_some_len {str : String} {p : Nat}
    (h : matchY str = some p) : str.data.length = 4 := by
  unfold matchY at h
  split at h
  · next heq => rw [heq]; rfl
  · exact Option.noConfusion h

theorem matchYM_none_of_len {str : String} (h : str.data.length ≠ 7) :
    matchYM str = none := by
  cases hm : matchYM str with
  | none => rfl
  | some p => exact absurd (matchYM_some_len hm) h

theorem matchY_none_of_len {str : String} (h : str.data.length ≠ 4) :
    matchY str = none := by
  cases hm : matchY str with
  | none => rfl
  | some p => exact absurd (matchY_some_len hm) h

theorem beq_present_false_of_len {str : String} (h : str.data.length ≠ 7) :
    (str == "present") = false := by
  apply beq_false_of_ne
  intro he
  subst he
  exact h rfl

/-- Claim C6: `get_date_object` with a caller-supplied reference date
accepts exactly the calendar-valid `YYYY`, `YYYY-MM` and `YYYY-MM-DD`
inputs (as strings, or as an integer whose decimal form is a four-digit
year) together with the string `present`, which resolves to the reference
date; everything else fails. In particular `2020-13` fails and `2020-02`
resolves to February 1, 2020. -/
theorem c6_parse_exact_characterization :
    (∀ (v : PyScalar) (ref : Date),
      isOkE (get_date_object v (some ref)) = specAcceptedExactDate v) ∧
    (∀ ref : Date, get_date_object (.s "present") (some ref) = .ok ref) ∧
    get_date_object (.s "2020-13") (some ⟨2024, 1, 1⟩) = .error .valueError ∧
    get_date_object (.s "2020-02") (some ⟨2024, 1, 1⟩) = .ok ⟨2020, 2, 1⟩ := by
  refine ⟨?_, fun ref => rfl, rfl, rfl⟩
  intro v ref
  cases v with
  | i n =>
    by_cases h : (1000 ≤ n ∧ n ≤ 9999) <;>
      simp [get_date_object, specAcceptedExactDate, isOkE, h]
  | s str =>
    cases hymd : matchYMD str with
    | some p =>
      obtain ⟨y, m, d⟩ := p
      have h10 := matchYMD_some_len hymd
      have hym : matchYM str = none := matchYM_none_of_len (by omega)
      have hpr : (str == "present") = false :=
        beq_present_false_of_len (by omega)
      by_cases hv : isoValid y m d = true <;>
        simp [get_date_object, specAcceptedExactDate, isOkE, hymd, hym,
          @matchY_none_of_len str (by omega), hpr, hv]
    | none =>
      cases hym : matchYM str with
      | some p =>
        obtain ⟨y, m⟩ := p
        have h7 := matchYM_some_len hym
        have hpr : (str == "present") = false := by
          apply beq_false_of_ne
          intro he
          rw [he] at hym
          exact Option.noConfusion hym
        by_cases hv : isoValid y m 1 = true <;>
          simp [get_date_object, specAcceptedExactDate, isOkE, hymd, hym,
            @matchY_none_of_len str (by omega), hpr, hv]
      | none =>
        cases hy : matchY str with
        | some y =>
          have h4 := matchY_some_len hy
          have hpr : (str == "present") = false :=
            beq_present_false_of_len (by omega)
          by_cases hv : isoValid y 1 1 = true <;>
            simp [get_date_object, specAcceptedExactDate, isOkE, hymd, hym,
              hy, hpr, hv]
        | none =>
          by_cases hpr : (str == "present") = true <;>
            simp [get_date_object, specAcceptedExactDate, isOkE, hymd, hym,
              hy, hpr]

theorem truthy_of_gdo_ok {v : PyScalar} {c : Option Date} {d : Date}
    (h : get_date_object v c = .ok d) : truthy (some v) = true := by
  cases v with
  | i n =>
    simp only [get_date_object] at h
    split at h
    · next hc => simp [truthy]; omega
    · exact Except.noConfusion h
  | s str =>
    simp only [truthy, Bool.not_eq_eq_eq_not, Bool.not_true, beq_eq_false_iff_ne]
    intro he
    subst he
    exact Except.noConfusion h

/-- Claim C3: normalization of the date facet applies the documented steps
in order. If `date` is set both range fields are cleared; else if only
`end_date` is set its value moves into `date` and the range fields are
cleared; else if only `start_date` is set `end_date` becomes the string
`present`; finally, when both (adjusted) range endpoints resolve to
calendar dates and the start date is strictly after the end date,
validation fails with the inverted-range error naming both date values. -/
theorem c3_date_normalization_steps :
    ∀ (f : DateFacet) (cur : Date),
      (∀ d, f.date = some d →
        check_and_adjust_dates f cur = .ok ⟨some d, none, none⟩) ∧
      (f.date = none → f.start_date = none → ∀ e, f.end_date = some e →
        check_and_adjust_dates f cur = .ok ⟨some e, none, none⟩) ∧
      (∀ sv, f.date = none → f.start_date = some sv → f.end_date = none →
        adjustDateFields f = ⟨none, some sv, some (.s "present")⟩) ∧
      (∀ sv ev sd ed, (adjustDateFields f).start_date = some sv →
        (adjustDateFields f).end_date = some ev →
        get_date_object sv (some cur) = .ok sd →
        get_date_object ev (some cur) = .ok ed →
        dateLt ed sd = true →
        check_and_adjust_dates f cur = .error (.startAfterEnd sv ev)) := by
  intro f cur
  refine ⟨?_, ?_, ?_, ?_⟩
  · intro d hd
    have ha : adjustDateFields f = ⟨some d, none, none⟩ := by
      simp [adjustDateFields, hd]
    simp [check_and_adjust_dates, ha, checkDateOrder, truthy]
  · intro hd hs e he
    have ha : adjustDateFields f = ⟨some e, none, none⟩ := by
      simp [adjustDateFields, hd, hs, he]
    simp [check_and_adjust_dates, ha, checkDateOrder, truthy]
  · intro sv hd hs he
    rcases f with ⟨fd, fs, fe⟩
    simp only at hd hs he
    subst hd hs he
    simp [adjustDateFields]
  · intro sv ev sd ed hgs hge hsd hed hlt
    have hts : truthy (some sv) = true := truthy_of_gdo_ok hsd
    have hte : truthy (some ev) = true := truthy_of_gdo_ok hed
    simp [check_and_adjust_dates, checkDateOrder, hgs, hge, hts, hte, hsd,
      hed, hlt]

/-- Witness for C3: the spec example with `start_date` 2021-01 and
`end_date` 2020-01 fails with the inverted-range error carrying both
values. -/
theorem c3_witness :
    check_and_adjust_dates
      ⟨none, some (.s "2021-01"), some (.s "2020-01")⟩ ⟨2024, 1, 1⟩
      = .error (.startAfterEnd (.s "2021-01") (.s "2020-01")) :=
  (c3_date_normalization_steps
    ⟨none, some (.s "2021-01"), some (.s "2020-01")⟩ ⟨2024, 1, 1⟩).2.2.2
    (.s "2021-01") (.s "2020-01") ⟨2021, 1, 1⟩ ⟨2020, 1, 1⟩
    rfl rfl rfl rfl rfl

theorem checkDateOrder_ok_eq {x : DateFacet} {cur : Date} {g : DateFacet}
    (h : checkDateOrder x cur = .ok g) : g = x := by
  unfold checkDateOrder at h
  repeat' split at h
  all_goals simp_all

/-- Counterexample for C4: a date-bearing entry with no date field at all
passes validation (an `ExperienceEntry` needs only `company` and
`position`), yet after normalization neither the single-date configuration
nor the range configuration holds, refuting the claimed "exactly one". -/
theorem c4_counterexample :
    validateEntryAs (.model .ExperienceEntry)
      (.record [("company", .s "C"), ("position", .s "P")]) ⟨2024, 1, 1⟩
      = [] ∧
    check_and_adjust_dates ⟨none, none, none⟩ ⟨2024, 1, 1⟩
      = .ok ⟨none, none, none⟩ ∧
    ¬ exactlyOneDateConfig ⟨none, none, none⟩ :=
  ⟨rfl, rfl, by simp [exactlyOneDateConfig]⟩

/-- Claim C4, amended: after normalization at most one of the two date
configurations holds: every successfully validated facet is the single
date alone, both range endpoints with `date` clear, or entirely empty; in
particular `date` never coexists with a populated range field, and an
entry entering with `date` set leaves with only `date` set. -/
theorem c4_at_most_one_date_config :
    ∀ (f : DateFacet) (cur : Date) (g : DateFacet),
      check_and_adjust_dates f cur = .ok g →
      (exactlyOneDateConfig g ∨
        (g.date = none ∧ g.start_date = none ∧ g.end_date = none)) ∧
      ¬(g.date.isSome = true ∧
        (g.start_date.isSome = true ∨ g.end_date.isSome = true)) ∧
      (f.date.isSome = true → g = ⟨f.date, none, none⟩) := by
  intro f cur g h
  have hg : g = adjustDateFields f := checkDateOrder_ok_eq h
  subst hg
  rcases f with ⟨fd, fs, fe⟩
  cases fd <;> cases fs <;> cases fe <;>
    simp [adjustDateFields, exactlyOneDateConfig]

/-- Witness for C4: an entry entering with `date` set and stray range
fields leaves with only `date` set, and satisfies the at-most-one
property. -/
theorem c4_witness :
    (exactlyOneDateConfig
        (DateFacet.mk (some (.s "2020")) none none) ∨
      ((DateFacet.mk (some (.s "2020")) none none).date = none ∧
        (DateFacet.mk (some (.s "2020")) none none).start_date = none ∧
        (DateFacet.mk (some (.s "2020")) none none).end_date = none)) ∧
    ¬((DateFacet.mk (some (.s "2020")) none none).date.isSome = true ∧
      ((DateFacet.mk (some (.s "2020")) none none).start_date.isSome = true ∨
        (DateFacet.mk (some (.s "2020")) none none).end_date.isSome = true)) ∧
    ((DateFacet.mk (some (.s "2020")) (some (.s "2021-01"))
        (some (.s "2022-01"))).date.isSome = true →
      DateFacet.mk (some (.s "2020")) none none
        = ⟨(DateFacet.mk (some (.s "2020")) (some (.s "2021-01"))
            (some (.s "2022-01"))).date, none, none⟩) :=
  c4_at_most_one_date_config
    ⟨some (.s "2020"), some (.s "2021-01"), some (.s "2022-01")⟩
    ⟨2024, 1, 1⟩ ⟨some (.s "2020"), none, none⟩ rfl

theorem mem_collectEntryErrorsFrom {kind : EntryKind} {cur : Date} :
    ∀ (es : List RawEntry) (base i : Nat) (e : RawEntry) (v : VErr),
      es[i]? = some e → v ∈ validateEntryAs kind e cur →
      (base + i, v) ∈ collectEntryErrorsFrom kind es cur base := by
  intro es
  induction es with
  | nil => intro base i e v h hv; simp at h
  | cons a rest ih =>
    intro base i e v h hv
    cases i with
    | zero =>
      rw [List.getElem?_cons_zero] at h
      cases h
      simp only [collectEntryErrorsFrom, Nat.add_zero, List.mem_append]
      exact Or.inl (List.mem_map_of_mem _ hv)
    | succ j =>
      rw [List.getElem?_cons_succ] at h
      have hmem := ih (base + 1) j e v h hv
      simp only [collectEntryErrorsFrom, List.mem_append]
      right
      have : base + (j + 1) = base + 1 + j := by omega
      rw [this]
      exact hmem

/-- Claim C2: the shape of a raw section given as a list is determined by
the first entry for which inference succeeds (a successful first entry
decides the kind, a failing first entry defers to the rest); if no entry
infers, the section fails with the shape-undetermined error; and every
entry of the list, including those preceding the determining one, is
validated against the detected kind, with each failure collected into the
single aggregate error that carries the detected kind. -/
theorem c2_section_shape_and_aggregation :
    (∀ (e : RawEntry) (rest : List RawEntry) (k : EntryKind),
      get_entry_type_name_and_section_model e = .ok k →
      findFirstEntryKind (e :: rest) = some k) ∧
    (∀ (e : RawEntry) (rest : List RawEntry) (err : InferErr),
      get_entry_type_name_and_section_model e = .error err →
      findFirstEntryKind (e :: rest) = findFirstEntryKind rest) ∧
    (∀ (es : List RawEntry) (cur : Date),
      findFirstEntryKind es = none →
      validate_section (.entries es) cur
        = .error .couldNotDetermineEntryType) ∧
    (∀ (es : List RawEntry) (cur : Date) (kind : EntryKind) (i : Nat)
      (e : RawEntry) (v : VErr),
      findFirstEntryKind es = some kind →
      es[i]? = some e → v ∈ validateEntryAs kind e cur →
      ∃ causes, validate_section (.entries es) cur
          = .error (.entryValidation kind causes) ∧ (i, v) ∈ causes) := by
  refine ⟨?_, ?_, ?_, ?_⟩
  · intro e rest k h
    simp [findFirstEntryKind, h]
  · intro e rest err h
    simp [findFirstEntryKind, h]
  · intro es cur h
    simp [validate_section, h]
  · intro es cur kind i e v hfind hget hv
    have hmem : (i, v) ∈ collectEntryErrorsFrom kind es cur 0 := by
      have := mem_collectEntryErrorsFrom es 0 i e v hget hv
      simpa using this
    refine ⟨collectEntryErrorsFrom kind es cur 0, ?_, hmem⟩
    have hne : collectEntryErrorsFrom kind es cur 0 ≠ [] :=
      List.ne_nil_of_mem hmem
    simp [validate_section, hfind, List.isEmpty_eq_false.mpr hne]

/-- Witness for C2: a section whose first two entries fail inference but
whose third infers as a one-line entry validates all three entries against
that kind; the first entry (not a dictionary) contributes its failure to
the aggregate error. -/
theorem c2_witness :
    ∃ causes,
      validate_section
        (.entries [.null, .record [("foo", .s "x")],
          .record [("label", .s "L"), ("details", .s "D")]]) ⟨2024, 1, 1⟩
        = .error (.entryValidation (.model .OneLineEntry) causes) ∧
      (0, VErr.inputNotADictionary) ∈ causes :=
  c2_section_shape_and_aggregation.2.2.2
    [.null, .record [("foo", .s "x")],
      .record [("label", .s "L"), ("details", .s "D")]]
    ⟨2024, 1, 1⟩ (.model .OneLineEntry) 0 .null .inputNotADictionary
    rfl rfl (by simp [validateEntryAs])

theorem all_entry_models_mem : ∀ t : EntryTypeName, t ∈ available_entry_models := by
  intro t
  cases t <;> decide

theorem find?_indexOf_min {α : Type} [DecidableEq α] (p : α → Bool) :
    ∀ (l : List α) (t : α), l.find? p = some t →
      ∀ u, p u = true → u ∈ l → l.indexOf t ≤ l.indexOf u := by
  intro l
  induction l with
  | nil => intro t h; simp at h
  | cons a rest ih =>
    intro t h u hu hm
    by_cases hpa : p a = true
    · rw [List.find?_cons_of_pos _ hpa] at h
      cases h
      rw [List.indexOf_cons_self]
      exact Nat.zero_le _
    · rw [List.find?_cons_of_neg _ hpa] at h
      have hta : a ≠ t := by
        intro he
        exact hpa (he ▸ List.find?_some h)
      have hua : a ≠ u := by
        intro he
        exact hpa (he ▸ hu)
      have hm2 : u ∈ rest := by
        rcases List.mem_cons.mp hm with he | hm2
        · exact absurd he.symm hua
        · exact hm2
      rw [List.indexOf_cons_ne _ hta, List.indexOf_cons_ne _ hua]
      exact Nat.succ_le_succ (ih t h u hu hm2)

/-- Claim C10: for a dictionary entry whose key set meets the
characteristic fields of two or more entry models, inference neither fails
nor reports ambiguity: it returns the matching model that comes first in
the catalog declaration order, and the result is a function of the key set
alone. -/
theorem c10_inference_first_match :
    ∀ (kvs : List (String × RVal)) (t1 t2 : EntryTypeName),
      t1 ≠ t2 →
      hasAnyKey (characteristic_entry_fields t1) (keysOf kvs) = true →
      hasAnyKey (characteristic_entry_fields t2) (keysOf kvs) = true →
      (∃ t : EntryTypeName,
        get_entry_type_name_and_section_model (.record kvs)
          = .ok (.model t) ∧
        hasAnyKey (characteristic_entry_fields t) (keysOf kvs) = true ∧
        ∀ u : EntryTypeName,
          hasAnyKey (characteristic_entry_fields u) (keysOf kvs) = true →
          available_entry_models.indexOf t
            ≤ available_entry_models.indexOf u) ∧
      (∀ kvs2 : List (String × RVal), keysOf kvs2 = keysOf kvs →
        get_entry_type_name_and_section_model (.record kvs2)
          = get_entry_type_name_and_section_model (.record kvs)) := by
  intro kvs t1 t2 hne h1 h2
  constructor
  · cases hfind : available_entry_models.find?
        (fun t => hasAnyKey (characteristic_entry_fields t) (keysOf kvs)) with
    | none =>
      exfalso
      have := List.find?_eq_none.mp hfind t1 (all_entry_models_mem t1)
      exact absurd h1 this
    | some t =>
      refine ⟨t, ?_, by simpa using List.find?_some hfind, ?_⟩
      · simp [get_entry_type_name_and_section_model, hfind]
      · intro u hu
        exact find?_indexOf_min _ available_entry_models t hfind u hu
          (all_entry_models_mem u)
  · intro kvs2 hk
    simp [get_entry_type_name_and_section_model, hk]

/-- Witness for C10: a dictionary whose keys meet the characteristic
fields of both `NormalEntry` (via `name`) and `ExperienceEntry` (via
`company`) infers deterministically. -/
theorem c10_witness :
    (∃ t : EntryTypeName,
      get_entry_type_name_and_section_model
        (.record [("name", RVal.s "X"), ("company", RVal.s "Y")])
        = .ok (.model t) ∧
      hasAnyKey (characteristic_entry_fields t)
        (keysOf [("name", RVal.s "X"), ("company", RVal.s "Y")]) = true ∧
      ∀ u : EntryTypeName,
        hasAnyKey (characteristic_entry_fields u)
          (keysOf [("name", RVal.s "X"), ("company", RVal.s "Y")]) = true →
        available_entry_models.indexOf t
          ≤ available_entry_models.indexOf u) ∧
    (∀ kvs2 : List (String × RVal),
      keysOf kvs2 = keysOf [("name", RVal.s "X"), ("company", RVal.s "Y")] →
      get_entry_type_name_and_section_model (.record kvs2)
        = get_entry_type_name_and_section_model
          (.record [("name", RVal.s "X"), ("company", RVal.s "Y")])) :=
  c10_inference_first_match [("name", RVal.s "X"), ("company", RVal.s "Y")]
    .NormalEntry .ExperienceEntry (by decide) (by decide) (by decide)

/-- Claim C9: override application is fail-fast over a value-semantics
copy. A successful batch composes; an error in a batch aborts everything
after it; and in particular once some prefix of overrides has applied, the
first failing override makes the whole apply return that error — no
partially overridden document is ever returned, and the value semantics of
the embedding reflects that the deep copy leaves the original document
untouched. -/
theorem c9_overrides_fail_fast :
    (∀ (l1 : List (String × String)) (d m : PyVal)
      (l2 : List (String × String)),
      apply_overrides_to_dictionary d l1 = .ok m →
      apply_overrides_to_dictionary d (l1 ++ l2)
        = apply_overrides_to_dictionary m l2) ∧
    (∀ (l1 : List (String × String)) (d : PyVal)
      (l2 : List (String × String)) (e : OvErr),
      apply_overrides_to_dictionary d l1 = .error e →
      apply_overrides_to_dictionary d (l1 ++ l2) = .error e) ∧
    (∀ (d : PyVal) (pre : List (String × String)) (k v : String)
      (post : List (String × String)) (d2 : PyVal) (e : OvErr),
      apply_overrides_to_dictionary d pre = .ok d2 →
      update_value_by_location d2 k v k = .error e →
      apply_overrides_to_dictionary d (pre ++ (k, v) :: post) = .error e) := by
  have hok : ∀ (l1 : List (String × String)) (d m : PyVal)
      (l2 : List (String × String)),
      apply_overrides_to_dictionary d l1 = .ok m →
      apply_overrides_to_dictionary d (l1 ++ l2)
        = apply_overrides_to_dictionary m l2 := by
    intro l1
    induction l1 with
    | nil =>
      intro d m l2 h
      simp only [apply_overrides_to_dictionary, Except.ok.injEq] at h
      subst h
      simp
    | cons a rest ih =>
      intro d m l2 h
      obtain ⟨k, v⟩ := a
      rw [List.cons_append]
      simp only [apply_overrides_to_dictionary] at h ⊢
      cases hu : update_value_by_location d k v k with
      | error e => rw [hu] at h; exact Except.noConfusion h
      | ok d2 => rw [hu] at h; exact ih d2 m l2 h
  have herr : ∀ (l1 : List (String × String)) (d : PyVal)
      (l2 : List (String × String)) (e : OvErr),
      apply_overrides_to_dictionary d l1 = .error e →
      apply_overrides_to_dictionary d (l1 ++ l2) = .error e := by
    intro l1
    induction l1 with
    | nil =>
      intro d l2 e h
      exact Except.noConfusion h
    | cons a rest ih =>
      intro d l2 e h
      obtain ⟨k, v⟩ := a
      rw [List.cons_append]
      simp only [apply_overrides_to_dictionary] at h ⊢
      cases hu : update_value_by_location d k v k with
      | error e2 => rw [hu] at h; exact h
      | ok d2 => rw [hu] at h; exact ih d2 l2 e h
  refine ⟨hok, herr, ?_⟩
  intro d pre k v post d2 e hpre hup
  rw [hok pre d d2 ((k, v) :: post) hpre]
  simp [apply_overrides_to_dictionary, hup]

/-- Witness for C9: with one override already applied, a second override
addressing index 5 of a one-element education list aborts the whole apply
with the out-of-range error. -/
theorem c9_witness :
    apply_overrides_to_dictionary
      (.dict [("cv", .dict [("name", .str "John"),
        ("sections", .dict [("education",
          .arr [.dict [("institution", .str "A")]])])])])
      ([("cv.name", "Jane")] ++
        ("cv.sections.education.5.institution", "MIT") :: [("cv.name", "Bob")])
      = .error (.indexOutOfRange 5 "cv.sections.education") :=
  c9_overrides_fail_fast.2.2
    (.dict [("cv", .dict [("name", .str "John"),
      ("sections", .dict [("education",
        .arr [.dict [("institution", .str "A")]])])])])
    [("cv.name", "Jane")] "cv.sections.education.5.institution" "MIT"
    [("cv.name", "Bob")]
    (.dict [("cv", .dict [("name", .str "Jane"),
      ("sections", .dict [("education",
        .arr [.dict [("institution", .str "A")]])])])])
    (.indexOutOfRange 5 "cv.sections.education") rfl rfl

/-- Counterexample for C5: the claim asserts that every integer segment
outside the half-open interval from zero to the list length fails with the
out-of-range error, but the source only rejects indices at or above the
length: the segment `-1` on a one-element list succeeds and overwrites the
last element through Python negative indexing. -/
theorem c5_counterexample :
    update_value_by_location (.arr [.str "a"]) "-1" "B" "-1"
      = .ok (.arr [.str "B"]) ∧ ((-1 : Int) < 0) :=
  ⟨rfl, by decide⟩

/-- Claim C5, amended: at a list node a segment that does not parse as an
integer fails with the not-an-index error carrying the already-resolved
parent path; an integer at or above the length (hence any nonnegative
index into an empty list) fails with the out-of-range error carrying the
parent path; an integer below the negated length raises an uncaught
IndexError; and an integer inside the bounds proceeds (a terminal segment
replaces that element with the literal override string). Negative indices
at or above the negated length are not range-checked and wrap from the
end. -/
theorem c5_list_index_resolution :
    ∀ (xs : List PyVal) (seg : String) (rest : List String)
      (value : String) (fullSegs : List String),
      (parsePyInt seg = none →
        update_segments (.arr xs) (seg :: rest) value fullSegs
          = .error (.notAnInteger (parentPath fullSegs (seg :: rest)) seg)) ∧
      (∀ i : Int, parsePyInt seg = some i → (xs.length : Int) ≤ i →
        update_segments (.arr xs) (seg :: rest) value fullSegs
          = .error (.indexOutOfRange i (parentPath fullSegs (seg :: rest)))) ∧
      (∀ i : Int, parsePyInt seg = some i → i < -(xs.length : Int) →
        update_segments (.arr xs) (seg :: rest) value fullSegs
          = .error (.uncaughtIndexError i)) ∧
      (∀ i : Int, parsePyInt seg = some i → 0 ≤ i →
        i < (xs.length : Int) → rest = [] →
        update_segments (.arr xs) (seg :: rest) value fullSegs
          = .ok (.arr (xs.set i.toNat (.str value)))) := by
  intro xs seg rest value fullSegs
  refine ⟨?_, ?_, ?_, ?_⟩
  · intro h
    simp only [update_segments, h]
  · intro i h hge
    simp only [update_segments, h]
    rw [if_pos hge]
  · intro i h hlt
    have hf1 : ¬((xs.length : Int) ≤ i) := by omega
    have hf2 : ¬(0 ≤ i ∧ i < (xs.length : Int)) := by omega
    have hf3 : ¬(-(xs.length : Int) ≤ i ∧ i < 0) := by omega
    simp only [update_segments, h]
    rw [if_neg hf1, dif_neg hf2, dif_neg hf3]
  · intro i h h0 hlen hrest
    subst hrest
    have hf1 : ¬((xs.length : Int) ≤ i) := by omega
    simp only [update_segments, h]
    rw [if_neg hf1, dif_pos ⟨h0, hlen⟩]
    simp

/-- Witness for C5: a nonnegative index into a zero-length list fails with
the out-of-range error. -/
theorem c5_witness :
    update_segments (.arr []) ("0" :: []) "MIT" ["0"]
      = .error (.indexOutOfRange 0 (parentPath ["0"] ("0" :: []))) :=
  (c5_list_index_resolution [] "0" [] "MIT" ["0"]).2.1 0 rfl (by decide)

/-- Counterexample for C1: the claim asserts that localizing the path
`cv.sections.experience.2.company` against a document whose experience list
has one element returns the range of `cv.sections.experience`. The embedded
walk instead raises the internal out-of-range error, even though the
ancestor path alone resolves to a range: localization does fail. -/
theorem c1_counterexample :
    get_coordinates_of_a_key_in_a_yaml_object c1Doc
      ["cv", "sections", "experience", "2", "company"]
      = .error (.indexOutOfRangeInternal 2) ∧
    get_coordinates_of_a_key_in_a_yaml_object c1Doc
      ["cv", "sections", "experience"] = .ok ((3, 5), (4, 6)) :=
  ⟨rfl, rfl⟩

theorem resolvePairs_append_error :
    ∀ (pre : List String) (p q : YNode × Coords) (k : String)
      (rest : List String) (e : LocErr),
      resolvePairs p pre = .ok q →
      get_inner_yaml_object_from_its_key q.fst k = .error e →
      resolvePairs p (pre ++ k :: rest) = .error e := by
  intro pre
  induction pre with
  | nil =>
    intro p q k rest e h h2
    rcases p with ⟨y, c⟩
    simp only [resolvePairs, Except.ok.injEq] at h
    subst h
    dsimp only at h2
    simp only [List.nil_append, resolvePairs]
    rw [h2]
  | cons a pre ih =>
    intro p q k rest e h h2
    rcases p with ⟨y, c⟩
    simp only [resolvePairs] at h
    cases hg : get_inner_yaml_object_from_its_key y a with
    | error e2 => rw [hg] at h; exact Except.noConfusion h
    | ok p2 =>
      rw [hg] at h
      rw [List.cons_append]
      simp only [resolvePairs]
      rw [hg]
      exact ih p2 q k rest e h h2

/-- Claim C1, amended: when a segment of the field path fails to resolve (a
missing key or an out-of-range index), the walk stops at that segment by
raising an internal error, and coordinate lookup propagates that error
instead of returning the range of the last successfully resolved ancestor:
localization CAN fail. -/
theorem c1_walk_stops_with_error :
    ∀ (y : YNode) (pre : List String) (q : YNode × Coords) (k : String)
      (rest : List String) (e : LocErr),
      resolvePairs (y, ((0, 0), (0, 0))) pre = .ok q →
      get_inner_yaml_object_from_its_key q.fst k = .error e →
      get_coordinates_of_a_key_in_a_yaml_object y (pre ++ k :: rest)
        = .error e := by
  intro y pre q k rest e h h2
  unfold get_coordinates_of_a_key_in_a_yaml_object
  rw [resolvePairs_append_error pre _ q k rest e h h2]

/-- Witness for C1: on the concrete document the three ancestor segments
resolve, segment `2` fails on the one-element experience list, and the
whole lookup returns the internal out-of-range error. -/
theorem c1_witness :
    get_coordinates_of_a_key_in_a_yaml_object c1Doc
      (["cv", "sections", "experience"] ++ "2" :: ["company"])
      = .error (.indexOutOfRangeInternal 2) :=
  c1_walk_stops_with_error c1Doc ["cv", "sections", "experience"]
    (.seq [((3, 6), .ymap [("company", (3, 8, 3, 10), .scalar "X")])],
      ((3, 5), (4, 6)))
    "2" ["company"] (.indexOutOfRangeInternal 2) rfl rfl

/-- Counterexample for C7: the claim asserts the spanned example yields 3
years and 0 months, but the reference formula itself (and the code) yields
3 years and 1 month: 1096 elapsed days leave remainder 1, and the month
count is that remainder floor-divided by 30 plus one. -/
theorem c7_counterexample :
    compute_time_span_string (.s "2020-01-01") (.s "2023-01-01")
      ⟨"year", "years", "month", "months"⟩ ⟨2024, 1, 1⟩
      = .ok ⟨"3", "years", "1", "month"⟩ ∧
    specSpanFromDays
      ((dateOrdinal ⟨2023, 1, 1⟩ : Int) - (dateOrdinal ⟨2020, 1, 1⟩ : Int))
      = (3, 1) :=
  ⟨rfl, rfl⟩

/-- Claim C7, amended: when both endpoints are strings (so neither is a
year-only integer) and both resolve to calendar dates, the result equals
the reference formula on the elapsed days — years by floor division by
365, months by floor-dividing the remainder by 30 plus one, month overflow
normalized — and the example spanning 2020-01-01 to 2023-01-01 yields 3
years and 1 month. -/
theorem c7_day_precision_formula :
    ∀ (ss es : String) (locale : LocaleWords) (cur : Date) (sd ed : Date),
      get_date_object (.s ss) (some cur) = .ok sd →
      get_date_object (.s es) (some cur) = .ok ed →
      compute_time_span_string (.s ss) (.s es) locale cur
        = .ok (formatSpanCounts
            (specSpanFromDays
              ((dateOrdinal ed : Int) - (dateOrdinal sd : Int))).1
            (specSpanFromDays
              ((dateOrdinal ed : Int) - (dateOrdinal sd : Int))).2
            locale) := by
  intro ss es locale cur sd ed hs he
  simp [compute_time_span_string, isIntScalar, hs, he, specSpanFromDays]

/-- Witness for C7: the formula applied to the concrete example. -/
theorem c7_witness :
    compute_time_span_string (.s "2020-01-01") (.s "2023-01-01")
      ⟨"year", "years", "month", "months"⟩ ⟨2024, 1, 1⟩
      = .ok (formatSpanCounts
          (specSpanFromDays
            ((dateOrdinal ⟨2023, 1, 1⟩ : Int)
              - (dateOrdinal ⟨2020, 1, 1⟩ : Int))).1
          (specSpanFromDays
            ((dateOrdinal ⟨2023, 1, 1⟩ : Int)
              - (dateOrdinal ⟨2020, 1, 1⟩ : Int))).2
          ⟨"year", "years", "month", "months"⟩) :=
  c7_day_precision_formula "2020-01-01" "2023-01-01"
    ⟨"year", "years", "month", "months"⟩ ⟨2024, 1, 1⟩
    ⟨2020, 1, 1⟩ ⟨2023, 1, 1⟩ rfl rfl

/-- Counterexample for C8: the claim asserts a minimum of one year only
when the year difference is nonzero, but the code renders one year for any
difference below two: two identical year-only endpoints still yield one
year. -/
theorem c8_counterexample :
    compute_time_span_string (.i 2020) (.i 2020)
      ⟨"year", "years", "month", "months"⟩ ⟨2024, 1, 1⟩
      = .ok ⟨"1", "year", "", ""⟩ ∧ ((2020 : Int) - 2020 = 0) :=
  ⟨rfl, by decide⟩

/-- Claim C8, amended: when either endpoint is a year-only integer the
result is the whole-year difference of the resolved years with no month
component, rendered as one year whenever that difference is below two
(including zero and negative differences); in particular 2020 to 2021
yields one year. -/
theorem c8_year_only_branch :
    ∀ (sv ev : PyScalar) (locale : LocaleWords) (cur : Date) (sd ed : Date),
      (isIntScalar sv || isIntScalar ev) = true →
      get_date_object sv (some cur) = .ok sd →
      get_date_object ev (some cur) = .ok ed →
      compute_time_span_string sv ev locale cur
        = .ok (if ((ed.year : Int) - (sd.year : Int)) < 2 then
            ⟨"1", locale.year, "", ""⟩
          else
            ⟨toString ((ed.year : Int) - (sd.year : Int)),
              locale.years, "", ""⟩) := by
  intro sv ev locale cur sd ed hint hs he
  simp [compute_time_span_string, hint, hs, he, apply_ite Except.ok]

/-- Witness for C8: the year-only endpoints 2020 and 2021 yield one
year. -/
theorem c8_witness :
    compute_time_span_string (.i 2020) (.i 2021)
      ⟨"year", "years", "month", "months"⟩ ⟨2024, 1, 1⟩
      = .ok (if (((2021 : Nat) : Int) - ((2020 : Nat) : Int)) < 2 then
          ⟨"1", "year", "", ""⟩
        else
          ⟨toString (((2021 : Nat) : Int) - ((2020 : Nat) : Int)),
            "years", "", ""⟩) :=
  c8_year_only_branch (.i 2020) (.i 2021)
    ⟨"year", "years", "month", "months"⟩ ⟨2024, 1, 1⟩
    ⟨2020, 1, 1⟩ ⟨2021, 1, 1⟩ rfl rfl rfl

end RenderCV
